import Mathlib

/-! Flatten gradient kernel (`paddle/phi/kernels/flatten_grad_kernel.cc`)

A shallow embedding of `phi::FlattenGradKernel` and of the `flatten_grad`
kernel registrations, with the properties of the kernel proved over it.

The kernel body is four statements long:

    auto x_dims = x_grad->dims();
    dev_ctx.Alloc(x_grad, out_grad.dtype());
    phi::Copy(dev_ctx, out_grad, dev_ctx.GetPlace(), false, x_grad);
    x_grad->Resize(x_dims);

Tensors live in a store indexed by handles, so that the three arguments of the
kernel may or may not denote the same tensor object.  `Alloc` and `phi::Copy`
are fallible store transformers supplied by the device context.
-/

namespace phi

/-- Element types: the C++ types named in the `PD_REGISTER_KERNEL` blocks, also
used as the element-type tag (`dtype()`) of a tensor. -/
inductive DataType where
  | bfloat16
  | float16
  | float
  | double
  | uint8_t
  | int8_t
  | int16_t
  | int
  | int64_t
  | bool
  deriving DecidableEq, Repr

/-- Placement identifier returned by `dev_ctx.GetPlace()`. -/
inductive Place where
  | CPU
  | GPU
  | XPU
  | Custom
  deriving DecidableEq, Repr

/-- Shape descriptor: the ordered sequence of dimension sizes. -/
abbrev DDim := List Nat

/-- Number of elements a shape describes: the product of its dimensions. -/
def product (d : DDim) : Nat := d.prod

/-- A dense tensor: shape descriptor, element-type tag, and the buffer seen as
the linear (row-major) sequence of raw element values it holds. -/
structure DenseTensor where
  dims : DDim
  dtype : DataType
  data : List Nat
  deriving DecidableEq, Repr

/-- Element count according to the shape descriptor (`numel()`). -/
def DenseTensor.numel (t : DenseTensor) : Nat := product t.dims

/-- Modelled from the spec: `DenseTensor::Resize`, whose body is not in the
source file.  It overwrites the shape descriptor; the buffer is left untouched,
only metadata changes. -/
def DenseTensor.Resize (t : DenseTensor) (d : DDim) : DenseTensor :=
  { t with dims := d }

/-- Modelled from the spec: row-major linearisation of a multi-index with
respect to a shape (the iteration order implied by the shape). -/
def linearIndex : DDim → List Nat → Nat → Nat
  | d :: ds, i :: is, acc => linearIndex ds is (acc * d + i)
  | _, _, acc => acc

/-- Modelled from the spec: the element of a tensor at a multi-index, read
from the buffer at the row-major offset of that index. -/
def DenseTensor.elemAt (t : DenseTensor) (idx : List Nat) : Option Nat :=
  t.data.get? (linearIndex t.dims idx 0)

/-- Tensor handles (the tensor objects the kernel arguments refer to). -/
abbrev Handle := Nat

/-- The store: the tensor object behind every handle. -/
abbrev Store := Handle → DenseTensor

/-- Write a tensor object back into the store. -/
def Store.set (σ : Store) (h : Handle) (t : DenseTensor) : Store :=
  fun k => if k = h then t else σ k

/-- The device context as the kernel sees it: its placement, its `Alloc`
member and the instantiation of `phi::Copy` for it.  Both calls may fail with
an error of type `ε`; neither body is in the source file, so they are
parameters of the kernel. -/
structure Context (ε : Type) where
  GetPlace : Place
  Alloc : Handle → DataType → Store → Except ε Store
  Copy : Handle → Place → Bool → Handle → Store → Except ε Store

/-- The statement `x_grad->Resize(x_dims)` on the store. -/
def Resize (x_grad : Handle) (x_dims : DDim) (σ : Store) : Store :=
  σ.set x_grad ((σ x_grad).Resize x_dims)

/-- The kernel `phi::FlattenGradKernel`, statement by statement.  The argument
`x` is received and never used, as in the source. -/
def FlattenGradKernel {ε : Type} (dev_ctx : Context ε)
    (_x out_grad x_grad : Handle) (σ : Store) : Except ε Store :=
  let x_dims := (σ x_grad).dims
  match dev_ctx.Alloc x_grad (σ out_grad).dtype σ with
  | .error e => .error e
  | .ok σ₁ =>
    match dev_ctx.Copy out_grad dev_ctx.GetPlace false x_grad σ₁ with
    | .error e => .error e
    | .ok σ₂ => .ok (Resize x_grad x_dims σ₂)

/-! ## The device-context calls, modelled from the specification -/

/-- Modelled from the spec: the effect of a successful allocation on the buffer
(body of `Alloc` is not in the source file).  The buffer is sized to hold `n`
elements; the cells already present are kept and the new ones are zero (their
contents are unspecified, no result below depends on them). -/
def sizeBuffer (buf : List Nat) (n : Nat) : List Nat :=
  buf.take n ++ List.replicate (n - buf.length) 0

/-- Modelled from the spec: `Allocate(tensor_handle, element_type)` on one
tensor (body of `Alloc` is not in the source file).  It sizes the buffer of the
tensor for the requested element type and tags the tensor with that type. -/
def allocTensor (t : DenseTensor) (dtype : DataType) : DenseTensor :=
  { t with dtype := dtype, data := sizeBuffer t.data t.numel }

/-- Modelled from the spec: `Copy(source, placement, is_synchronous,
destination)` on one tensor (body of `phi::Copy` is not in the source file).
A raw element-wise copy of the source buffer into the destination buffer,
which is sized for the source: the destination takes the source's shape
descriptor and element type as a side effect. -/
def copyTensor (src _dst : DenseTensor) : DenseTensor :=
  { dims := src.dims, dtype := src.dtype, data := src.data }

/-- Modelled from the spec: the device context of the specification (bodies of
`Alloc` and `phi::Copy` are not in the source file).  `allocFault` and
`copyFault` say on which calls the allocation (out of device memory) and the
transfer (broken device link) fail, and with which error; a call that does not
fail mutates its destination tensor only. -/
def specContext {ε : Type} (place : Place)
    (allocFault : DenseTensor → DataType → Option ε)
    (copyFault : DenseTensor → Place → Bool → DenseTensor → Option ε) :
    Context ε where
  GetPlace := place
  Alloc := fun t dtype σ =>
    match allocFault (σ t) dtype with
    | some e => .error e
    | none => .ok (σ.set t (allocTensor (σ t) dtype))
  Copy := fun src dst_place blocking dst σ =>
    match copyFault (σ src) dst_place blocking (σ dst) with
    | some e => .error e
    | none => .ok (σ.set dst (copyTensor (σ src) (σ dst)))

/-! ## Kernel registrations -/

/-- Element types of `PD_REGISTER_KERNEL(flatten_grad, CPU, ...)`. -/
def flatten_grad_CPU : List DataType :=
  [.bfloat16, .float, .double, .uint8_t, .int8_t, .int16_t, .int, .int64_t, .bool]

/-- Element types of `PD_REGISTER_KERNEL(flatten_grad, GPU, ...)`. -/
def flatten_grad_GPU : List DataType :=
  [.float, .float16, .bfloat16, .double, .uint8_t, .int8_t, .int, .int64_t]

/-- Element types of `PD_REGISTER_KERNEL(flatten_grad, XPU, ...)`. -/
def flatten_grad_XPU : List DataType :=
  [.double, .float, .float16, .bfloat16, .int64_t, .int, .int16_t, .int8_t,
   .uint8_t, .bool]

/-- Element types of `PD_REGISTER_KERNEL(flatten_grad, Custom, ...)`. -/
def flatten_grad_Custom : List DataType :=
  [.float, .float16, .double, .uint8_t, .int8_t, .int16_t, .int, .int64_t]

/-! ## Error taxonomy and concrete scenarios -/

/-- Modelled from the spec: the two failures the external calls can raise
(the error types are not in the source file). -/
inductive KernelError where
  | AllocationFailure
  | CopyFailure
  deriving DecidableEq, Repr

/-- A CPU context on which neither the allocation nor the copy ever fails. -/
def okContext : Context KernelError :=
  specContext .CPU (fun _ _ => none) (fun _ _ _ _ => none)

/-- A GPU context that is out of device memory and whose link is broken:
every allocation and every copy fails. -/
def oomContext : Context KernelError :=
  specContext .GPU (fun _ _ => some .AllocationFailure)
    (fun _ _ _ _ => some .CopyFailure)

/-- A GPU context whose allocations succeed and whose copies all fail. -/
def brokenLinkContext : Context KernelError :=
  specContext .GPU (fun _ _ => none) (fun _ _ _ _ => some .CopyFailure)

/-- The scenario of the specification.  Handle 0 is `x` (shape [2,3,4]),
handle 1 is `out_grad` (shape [2,12], values 0..23), every other handle, in
particular 2 for `x_grad`, is a not yet allocated tensor of shape [2,3,4]. -/
def scenarioStore : Store := fun h =>
  match h with
  | 0 => { dims := [2, 3, 4], dtype := .float, data := List.replicate 24 7 }
  | 1 => { dims := [2, 12], dtype := .float, data := List.range 24 }
  | _ => { dims := [2, 3, 4], dtype := .float, data := [] }

/-- The in-place situation the note in the kernel refers to: the tensor `x`
(handle 0) already carries the flattened shape [2,12], while `x_grad`
(handle 2) carries the original shape [2,3,4]. -/
def inplaceStore : Store := fun h =>
  match h with
  | 0 => { dims := [2, 12], dtype := .float, data := List.replicate 24 7 }
  | 1 => { dims := [2, 12], dtype := .float, data := List.range 24 }
  | _ => { dims := [2, 3, 4], dtype := .float, data := [] }

/-- A store in which `x` and `x_grad` are tagged `int` while `out_grad`
(handle 1) is tagged `float`. -/
def mixedStore : Store := fun h =>
  match h with
  | 1 => { dims := [2, 12], dtype := .float, data := List.range 24 }
  | _ => { dims := [2, 3, 4], dtype := .int, data := List.replicate 24 0 }

/-- A store with an empty `out_grad` (handle 1, shape [0]) and an `x_grad`
(handle 2) whose shape [3,0,2] has product 0 and whose buffer is stale. -/
def emptyStore : Store := fun h =>
  match h with
  | 1 => { dims := [0], dtype := .double, data := [] }
  | _ => { dims := [3, 0, 2], dtype := .float, data := [5, 6] }

/-- A store in which the shape of `x_grad` (handle 2, shape [5]) does not
match the 24 elements of `out_grad` (handle 1). -/
def mismatchStore : Store := fun h =>
  match h with
  | 1 => { dims := [2, 12], dtype := .float, data := List.range 24 }
  | _ => { dims := [5], dtype := .float, data := [] }

/-- A tensor is consistent when its buffer holds exactly as many elements as
its shape describes. -/
def DenseTensor.consistent (t : DenseTensor) : Prop :=
  t.numel = t.data.length

instance (t : DenseTensor) : Decidable t.consistent :=
  inferInstanceAs (Decidable (t.numel = t.data.length))

/-! ## Basic facts about the store and the modelled calls -/

theorem Store.set_same (σ : Store) (h : Handle) (t : DenseTensor) :
    (σ.set h t) h = t := by
  simp [Store.set]

theorem Store.set_other (σ : Store) (h k : Handle) (t : DenseTensor)
    (hk : k ≠ h) : (σ.set h t) k = σ k := by
  simp [Store.set, hk]

theorem Resize_same (x_grad : Handle) (d : DDim) (σ : Store) :
    Resize x_grad d σ x_grad = (σ x_grad).Resize d := by
  simp [Resize, Store.set]

theorem Resize_other (x_grad k : Handle) (d : DDim) (σ : Store)
    (hk : k ≠ x_grad) : Resize x_grad d σ k = σ k := by
  simp [Resize, Store.set, hk]

/-- The kernel succeeds as soon as its two external calls do, and its result
is the store left by the copy with the saved shape written back. -/
theorem FlattenGradKernel_ok {ε : Type} (dev_ctx : Context ε)
    (x out_grad x_grad : Handle) (σ σ₁ σ₂ : Store)
    (hAlloc : dev_ctx.Alloc x_grad (σ out_grad).dtype σ = .ok σ₁)
    (hCopy : dev_ctx.Copy out_grad dev_ctx.GetPlace false x_grad σ₁ = .ok σ₂) :
    FlattenGradKernel dev_ctx x out_grad x_grad σ
      = .ok (Resize x_grad (σ x_grad).dims σ₂) := by
  simp [FlattenGradKernel, hAlloc, hCopy]

/-- A successful run went through a successful allocation and a successful
copy. -/
theorem FlattenGradKernel_ok_inv {ε : Type} (dev_ctx : Context ε)
    (x out_grad x_grad : Handle) (σ σ' : Store)
    (h : FlattenGradKernel dev_ctx x out_grad x_grad σ = .ok σ') :
    ∃ σ₁ σ₂, dev_ctx.Alloc x_grad (σ out_grad).dtype σ = .ok σ₁ ∧
      dev_ctx.Copy out_grad dev_ctx.GetPlace false x_grad σ₁ = .ok σ₂ ∧
      σ' = Resize x_grad (σ x_grad).dims σ₂ := by
  unfold FlattenGradKernel at h
  cases hA : dev_ctx.Alloc x_grad (σ out_grad).dtype σ with
  | error e => simp [hA] at h
  | ok σ₁ =>
    cases hC : dev_ctx.Copy out_grad dev_ctx.GetPlace false x_grad σ₁ with
    | error e => simp [hA, hC] at h
    | ok σ₂ =>
      simp [hA, hC] at h
      exact ⟨σ₁, σ₂, rfl, hC, h.symm⟩

/-- A successful modelled allocation rewrites the destination tensor only. -/
theorem specContext_Alloc_ok {ε : Type} (place : Place)
    (allocFault : DenseTensor → DataType → Option ε)
    (copyFault : DenseTensor → Place → Bool → DenseTensor → Option ε)
    (t : Handle) (dtype : DataType) (σ σ₁ : Store)
    (h : (specContext place allocFault copyFault).Alloc t dtype σ = .ok σ₁) :
    σ₁ = σ.set t (allocTensor (σ t) dtype) := by
  simp only [specContext] at h
  cases hf : allocFault (σ t) dtype with
  | some e => simp [hf] at h
  | none => simp [hf] at h; exact h.symm

/-- A successful modelled copy rewrites the destination tensor only. -/
theorem specContext_Copy_ok {ε : Type} (place : Place)
    (allocFault : DenseTensor → DataType → Option ε)
    (copyFault : DenseTensor → Place → Bool → DenseTensor → Option ε)
    (src dst : Handle) (p : Place) (b : Bool) (σ σ₂ : Store)
    (h : (specContext place allocFault copyFault).Copy src p b dst σ = .ok σ₂) :
    σ₂ = σ.set dst (copyTensor (σ src) (σ dst)) := by
  simp only [specContext] at h
  cases hf : copyFault (σ src) p b (σ dst) with
  | some e => simp [hf] at h
  | none => simp [hf] at h; exact h.symm

theorem sizeBuffer_length (buf : List Nat) (n : Nat) :
    (sizeBuffer buf n).length = n := by
  simp [sizeBuffer]
  omega

theorem sizeBuffer_of_length (buf : List Nat) (n : Nat) (h : buf.length = n) :
    sizeBuffer buf n = buf := by
  simp [sizeBuffer, ← h]

/-- What a successful run on the modelled context leaves in the store: every
tensor other than `x_grad` is as before, and `x_grad` has its saved shape, the
element type of `out_grad` and the buffer that `out_grad` held when the copy
ran. -/
theorem specContext_run {ε : Type} (place : Place)
    (allocFault : DenseTensor → DataType → Option ε)
    (copyFault : DenseTensor → Place → Bool → DenseTensor → Option ε)
    (x out_grad x_grad : Handle) (σ σ₁ σ₂ : Store)
    (hAlloc : (specContext place allocFault copyFault).Alloc x_grad
      (σ out_grad).dtype σ = .ok σ₁)
    (hCopy : (specContext place allocFault copyFault).Copy out_grad
      (specContext place allocFault copyFault).GetPlace false x_grad σ₁ = .ok σ₂) :
    FlattenGradKernel (specContext place allocFault copyFault) x out_grad x_grad σ
      = .ok (Resize x_grad (σ x_grad).dims σ₂) ∧
    (∀ k, k ≠ x_grad → Resize x_grad (σ x_grad).dims σ₂ k = σ k) ∧
    Resize x_grad (σ x_grad).dims σ₂ x_grad =
      { dims := (σ x_grad).dims, dtype := (σ out_grad).dtype, data := (σ₁ out_grad).data } ∧
    (out_grad ≠ x_grad → σ₁ out_grad = σ out_grad) ∧
    (out_grad = x_grad →
      (σ₁ out_grad).data = sizeBuffer (σ x_grad).data (σ x_grad).numel) := by
  have h1 := specContext_Alloc_ok place allocFault copyFault _ _ _ _ hAlloc
  have h2 := specContext_Copy_ok place allocFault copyFault _ _ _ _ _ _ hCopy
  refine ⟨FlattenGradKernel_ok _ x out_grad x_grad σ σ₁ σ₂ hAlloc hCopy, ?_, ?_, ?_, ?_⟩
  · intro k hk
    rw [Resize_other _ _ _ _ hk, h2, Store.set_other _ _ _ _ hk, h1,
      Store.set_other _ _ _ _ hk]
  · rw [Resize_same, h2, Store.set_same]
    by_cases hog : out_grad = x_grad
    · subst hog
      simp [DenseTensor.Resize, copyTensor, h1, Store.set_same, allocTensor]
    · simp [DenseTensor.Resize, copyTensor, h1, Store.set_other _ _ _ _ hog]
  · intro hog
    rw [h1, Store.set_other _ _ _ _ hog]
  · intro hog
    subst hog
    simp [h1, Store.set_same, allocTensor]

/-! ## Shape restoration -/

/-- C1: whenever Alloc and Copy succeed the kernel succeeds, and the shape
descriptor of `x_grad` after the call is the one `x_grad` had immediately
before the call, whatever Alloc and Copy did to it in between; so when that
shape differs from the shape of `out_grad`, the result does not carry the
shape of `out_grad`. -/
theorem FlattenGradKernel_restores_dims {ε : Type} (dev_ctx : Context ε)
    (x out_grad x_grad : Handle) (σ σ₁ σ₂ : Store)
    (hAlloc : dev_ctx.Alloc x_grad (σ out_grad).dtype σ = .ok σ₁)
    (hCopy : dev_ctx.Copy out_grad dev_ctx.GetPlace false x_grad σ₁ = .ok σ₂) :
    ∃ σ', FlattenGradKernel dev_ctx x out_grad x_grad σ = .ok σ' ∧
      (σ' x_grad).dims = (σ x_grad).dims ∧
      ((σ x_grad).dims ≠ (σ out_grad).dims →
        (σ' x_grad).dims ≠ (σ out_grad).dims) := by
  refine ⟨_, FlattenGradKernel_ok dev_ctx x out_grad x_grad σ σ₁ σ₂ hAlloc hCopy, ?_, ?_⟩
  · simp [Resize_same, DenseTensor.Resize]
  · intro hne
    simpa [Resize_same, DenseTensor.Resize] using hne

/-- In the scenario of the specification the copy leaves `x_grad` with the
shape [2,12] of `out_grad`, and the kernel ends with the shape [2,3,4] that
`x_grad` had before the call. -/
theorem FlattenGradKernel_restores_dims_witness :
    ((scenarioStore.set 2 (allocTensor (scenarioStore 2) .float)).set 2
        (copyTensor (scenarioStore 1) (allocTensor (scenarioStore 2) .float)) 2).dims
      = [2, 12] ∧
    ∃ σ', FlattenGradKernel okContext 0 1 2 scenarioStore = .ok σ' ∧
      (σ' 2).dims = (scenarioStore 2).dims ∧
      ((scenarioStore 2).dims ≠ (scenarioStore 1).dims →
        (σ' 2).dims ≠ (scenarioStore 1).dims) :=
  ⟨by decide,
   FlattenGradKernel_restores_dims okContext 0 1 2 scenarioStore
    (scenarioStore.set 2 (allocTensor (scenarioStore 2) .float))
    ((scenarioStore.set 2 (allocTensor (scenarioStore 2) .float)).set 2
      (copyTensor (scenarioStore 1) (allocTensor (scenarioStore 2) .float)))
    rfl rfl⟩

/-- C2 (as stated, refuted): in the in-place situation `x` has shape [2,12],
`out_grad` has shape [2,12] (same element count) and `x_grad` arrives with
shape [2,3,4]; the kernel succeeds and the destination ends with shape
[2,3,4], which is not the shape of the argument `x`. -/
theorem FlattenGradKernel_dims_not_from_x :
    product (inplaceStore 0).dims = product (inplaceStore 1).dims ∧
    ∃ σ', FlattenGradKernel okContext 0 1 2 inplaceStore = .ok σ' ∧
      (σ' 2).dims = [2, 3, 4] ∧ (σ' 2).dims ≠ (inplaceStore 0).dims :=
  ⟨by decide, _, rfl, by decide, by decide⟩

/-- C2 (amended): for all shapes S and S' with equal total element count, when
`out_grad` has shape S' and the destination `x_grad` arrives with shape S, the
kernel (Alloc and Copy succeeding) succeeds and the destination ends with
shape S, regardless of S' and of the shape of `x`; it ends with the shape of
the argument `x` exactly when `x_grad` arrived with that shape. -/
theorem FlattenGradKernel_dims_from_x_grad {ε : Type} (dev_ctx : Context ε)
    (x out_grad x_grad : Handle) (σ σ₁ σ₂ : Store) (S S' : DDim)
    (_hcount : product S = product S')
    (hS : (σ x_grad).dims = S) (_hS' : (σ out_grad).dims = S')
    (hAlloc : dev_ctx.Alloc x_grad (σ out_grad).dtype σ = .ok σ₁)
    (hCopy : dev_ctx.Copy out_grad dev_ctx.GetPlace false x_grad σ₁ = .ok σ₂) :
    ∃ σ', FlattenGradKernel dev_ctx x out_grad x_grad σ = .ok σ' ∧
      (σ' x_grad).dims = S ∧
      ((σ' x_grad).dims = (σ x).dims ↔ (σ x_grad).dims = (σ x).dims) := by
  refine ⟨_, FlattenGradKernel_ok dev_ctx x out_grad x_grad σ σ₁ σ₂ hAlloc hCopy, ?_, ?_⟩
  · simp [Resize_same, DenseTensor.Resize, hS]
  · simp [Resize_same, DenseTensor.Resize]

/-- The amended C2 at the scenario of the specification: S = [2,3,4],
S' = [2,12]. -/
theorem FlattenGradKernel_dims_from_x_grad_witness :
    product [2, 3, 4] = product [2, 12] ∧
    ∃ σ', FlattenGradKernel okContext 0 1 2 scenarioStore = .ok σ' ∧
      (σ' 2).dims = [2, 3, 4] ∧
      ((σ' 2).dims = (scenarioStore 0).dims ↔
        (scenarioStore 2).dims = (scenarioStore 0).dims) :=
  ⟨by decide,
   FlattenGradKernel_dims_from_x_grad okContext 0 1 2 scenarioStore
    (scenarioStore.set 2 (allocTensor (scenarioStore 2) .float))
    ((scenarioStore.set 2 (allocTensor (scenarioStore 2) .float)).set 2
      (copyTensor (scenarioStore 1) (allocTensor (scenarioStore 2) .float)))
    [2, 3, 4] [2, 12] (by decide) rfl rfl rfl rfl⟩

/-! ## Values and element type -/

/-- C4: on the modelled context (Alloc and Copy succeeding) the kernel succeeds
and the element-type tag of `x_grad` after the call is the element-type tag of
`out_grad`, whatever tags `x_grad` and `x` carried before. -/
theorem FlattenGradKernel_dtype {ε : Type} (place : Place)
    (allocFault : DenseTensor → DataType → Option ε)
    (copyFault : DenseTensor → Place → Bool → DenseTensor → Option ε)
    (x out_grad x_grad : Handle) (σ σ₁ σ₂ : Store)
    (hAlloc : (specContext place allocFault copyFault).Alloc x_grad
      (σ out_grad).dtype σ = .ok σ₁)
    (hCopy : (specContext place allocFault copyFault).Copy out_grad
      (specContext place allocFault copyFault).GetPlace false x_grad σ₁ = .ok σ₂) :
    ∃ σ', FlattenGradKernel (specContext place allocFault copyFault) x out_grad x_grad σ
        = .ok σ' ∧
      (σ' x_grad).dtype = (σ out_grad).dtype := by
  obtain ⟨hrun, _, hres, _, _⟩ :=
    specContext_run place allocFault copyFault x out_grad x_grad σ σ₁ σ₂ hAlloc hCopy
  exact ⟨_, hrun, by rw [hres]⟩

/-- With `x` and `x_grad` tagged `int` and `out_grad` tagged `float`, the
destination ends tagged `float`. -/
theorem FlattenGradKernel_dtype_witness :
    (mixedStore 0).dtype = .int ∧ (mixedStore 2).dtype = .int ∧
    ∃ σ', FlattenGradKernel okContext 0 1 2 mixedStore = .ok σ' ∧
      (σ' 2).dtype = (mixedStore 1).dtype :=
  ⟨by decide, by decide,
   FlattenGradKernel_dtype .CPU (fun _ _ => (none : Option KernelError))
     (fun _ _ _ _ => none) 0 1 2 mixedStore _ _ rfl rfl⟩

/-! ## Frame -/

/-- C7: on the modelled context, if the kernel succeeds and is run a second
time with the same `x` and `out_grad` on the store the first run produced, then
the destination after the second run is the destination after the first run:
same buffer, same shape descriptor, same element type. -/
theorem FlattenGradKernel_idempotent {ε : Type} (place : Place)
    (allocFault : DenseTensor → DataType → Option ε)
    (copyFault : DenseTensor → Place → Bool → DenseTensor → Option ε)
    (x out_grad x_grad : Handle) (σ σa σb : Store)
    (hfirst : FlattenGradKernel (specContext place allocFault copyFault)
      x out_grad x_grad σ = .ok σa)
    (hsecond : FlattenGradKernel (specContext place allocFault copyFault)
      x out_grad x_grad σa = .ok σb) :
    σb x_grad = σa x_grad ∧ (σb x_grad).data = (σa x_grad).data ∧
      (σb x_grad).dims = (σa x_grad).dims ∧
      (σb x_grad).dtype = (σa x_grad).dtype := by
  obtain ⟨σ₁, σ₂, hA, hC, rfl⟩ := FlattenGradKernel_ok_inv _ _ _ _ _ _ hfirst
  obtain ⟨τ₁, τ₂, hA', hC', rfl⟩ := FlattenGradKernel_ok_inv _ _ _ _ _ _ hsecond
  obtain ⟨_, hframe, hres, hdist, hsame⟩ :=
    specContext_run place allocFault copyFault x out_grad x_grad σ σ₁ σ₂ hA hC
  obtain ⟨_, _, hres', hdist', hsame'⟩ :=
    specContext_run place allocFault copyFault x out_grad x_grad _ τ₁ τ₂ hA' hC'
  have key : Resize x_grad (Resize x_grad (σ x_grad).dims σ₂ x_grad).dims τ₂ x_grad
      = Resize x_grad (σ x_grad).dims σ₂ x_grad := by
    rw [hres']
    by_cases hog : out_grad = x_grad
    · rw [hsame' hog, hog, hres, hsame hog, hog]
      simp only [DenseTensor.numel]
      rw [sizeBuffer_of_length _ _ (sizeBuffer_length _ _)]
    · rw [hdist' hog, hframe out_grad hog, hres, hdist hog]
  exact ⟨key, by rw [key], by rw [key], by rw [key]⟩

/-- Two runs in the scenario of the specification. -/
theorem FlattenGradKernel_idempotent_witness :
    ∃ σa σb, FlattenGradKernel okContext 0 1 2 scenarioStore = .ok σa ∧
      FlattenGradKernel okContext 0 1 2 σa = .ok σb ∧
      σb 2 = σa 2 ∧ (σb 2).data = (σa 2).data ∧ (σb 2).dims = (σa 2).dims ∧
      (σb 2).dtype = (σa 2).dtype :=
  ⟨_, _, rfl, rfl,
   FlattenGradKernel_idempotent .CPU (fun _ _ => (none : Option KernelError))
     (fun _ _ _ _ => none) 0 1 2 scenarioStore _ _ rfl rfl⟩

/-- C9: the kernel is fail-fast.  If Alloc fails the kernel fails with Alloc's
error, whatever the copy routine is (it is not reached); if Alloc succeeds and
Copy fails the kernel fails with Copy's error; if both succeed the kernel
succeeds; hence the kernel fails with an error `e` if and only if Alloc failed
with `e`, or Alloc succeeded and Copy failed with `e`. -/
theorem FlattenGradKernel_fail_fast {ε : Type} (dev_ctx : Context ε)
    (x out_grad x_grad : Handle) (σ : Store) :
    (∀ e, dev_ctx.Alloc x_grad (σ out_grad).dtype σ = .error e →
      ∀ copy, FlattenGradKernel { dev_ctx with Copy := copy } x out_grad x_grad σ
        = .error e) ∧
    (∀ σ₁ e, dev_ctx.Alloc x_grad (σ out_grad).dtype σ = .ok σ₁ →
      dev_ctx.Copy out_grad dev_ctx.GetPlace false x_grad σ₁ = .error e →
      FlattenGradKernel dev_ctx x out_grad x_grad σ = .error e) ∧
    (∀ σ₁ σ₂, dev_ctx.Alloc x_grad (σ out_grad).dtype σ = .ok σ₁ →
      dev_ctx.Copy out_grad dev_ctx.GetPlace false x_grad σ₁ = .ok σ₂ →
      FlattenGradKernel dev_ctx x out_grad x_grad σ
        = .ok (Resize x_grad (σ x_grad).dims σ₂)) ∧
    (∀ e, FlattenGradKernel dev_ctx x out_grad x_grad σ = .error e ↔
      (dev_ctx.Alloc x_grad (σ out_grad).dtype σ = .error e ∨
        ∃ σ₁, dev_ctx.Alloc x_grad (σ out_grad).dtype σ = .ok σ₁ ∧
          dev_ctx.Copy out_grad dev_ctx.GetPlace false x_grad σ₁ = .error e)) := by
  refine ⟨?_, ?_, ?_, ?_⟩
  · intro e hA copy
    simp [FlattenGradKernel, hA]
  · intro σ₁ e hA hC
    simp [FlattenGradKernel, hA, hC]
  · intro σ₁ σ₂ hA hC
    exact FlattenGradKernel_ok dev_ctx x out_grad x_grad σ σ₁ σ₂ hA hC
  · intro e
    unfold FlattenGradKernel
    cases hA : dev_ctx.Alloc x_grad (σ out_grad).dtype σ with
    | error e' => simp
    | ok σ₁ =>
      cases hC : dev_ctx.Copy out_grad dev_ctx.GetPlace false x_grad σ₁ with
      | error e' => simp [hC]
      | ok σ₂ => simp [hC]

/-- On a context that is out of memory and has a broken link the kernel
reports the allocation failure, and on a context whose link alone is broken it
reports the copy failure. -/
theorem FlattenGradKernel_fail_fast_witness :
    FlattenGradKernel oomContext 0 1 2 scenarioStore
      = .error KernelError.AllocationFailure ∧
    FlattenGradKernel brokenLinkContext 0 1 2 scenarioStore
      = .error KernelError.CopyFailure :=
  ⟨(FlattenGradKernel_fail_fast oomContext 0 1 2 scenarioStore).1
      KernelError.AllocationFailure rfl oomContext.Copy,
   (FlattenGradKernel_fail_fast brokenLinkContext 0 1 2 scenarioStore).2.1
      _ KernelError.CopyFailure rfl rfl⟩

/-! ## Registered element types -/

/-- C6 (as stated, refuted): `float16` is registered for GPU, XPU and Custom
device and is not registered for CPU, so not every accelerator element type is
a CPU element type, and the XPU set is not a subset of the CPU set. -/
theorem flatten_grad_CPU_not_broadest :
    DataType.float16 ∈ flatten_grad_GPU ∧ DataType.float16 ∈ flatten_grad_XPU ∧
    DataType.float16 ∈ flatten_grad_Custom ∧ DataType.float16 ∉ flatten_grad_CPU ∧
    ¬ (∀ t, (t ∈ flatten_grad_GPU ∨ t ∈ flatten_grad_XPU ∨ t ∈ flatten_grad_Custom) →
        t ∈ flatten_grad_CPU) := by
  refine ⟨by decide, by decide, by decide, by decide, ?_⟩
  intro h
  exact absurd (h DataType.float16 (Or.inl (by decide))) (by decide)

/-- C6 (amended): the CPU set is bfloat16, float, double, uint8, int8, int16,
int32, int64, bool; every element type registered for GPU, XPU or Custom device
other than `float16` is also registered for CPU; GPU leaves out the CPU types
int16 and bool, Custom leaves out bfloat16 and bool, and XPU registers every
CPU type. -/
theorem flatten_grad_accelerators_within_CPU_and_float16 :
    flatten_grad_CPU = [.bfloat16, .float, .double, .uint8_t, .int8_t, .int16_t,
      .int, .int64_t, .bool] ∧
    (∀ t, (t ∈ flatten_grad_GPU ∨ t ∈ flatten_grad_XPU ∨ t ∈ flatten_grad_Custom) →
      t ≠ DataType.float16 → t ∈ flatten_grad_CPU) ∧
    (∀ t, t ∈ flatten_grad_CPU →
      (t ∈ flatten_grad_GPU ↔ (t ≠ DataType.int16_t ∧ t ≠ DataType.bool))) ∧
    (∀ t, t ∈ flatten_grad_CPU →
      (t ∈ flatten_grad_Custom ↔ (t ≠ DataType.bfloat16 ∧ t ≠ DataType.bool))) ∧
    (∀ t, t ∈ flatten_grad_CPU → t ∈ flatten_grad_XPU) := by
  refine ⟨rfl, ?_, ?_, ?_, ?_⟩ <;> intro t <;> cases t <;> decide

/-- The amended C6 at `int16_t`, registered for XPU and Custom and for CPU. -/
theorem flatten_grad_accelerators_within_CPU_and_float16_witness :
    DataType.int16_t ∈ flatten_grad_XPU ∧ DataType.int16_t ∈ flatten_grad_CPU :=
  ⟨by decide,
   flatten_grad_accelerators_within_CPU_and_float16.2.1 DataType.int16_t
     (Or.inr (Or.inl (by decide))) (by decide)⟩

end phi
